import Mathlib

/-!
Shallow embedding of the server actions in `src/actions/actions.ts` of the
persona2 repository, together with proofs of the specified properties.

The database is modelled as an explicit list of user rows threaded through
every operation; the two external scraper calls and the two email-vendor
HTTP calls are modelled by explicit outcome parameters (an operation is a
function of the outcomes of the external calls it makes).  JavaScript
exceptions are modelled by an explicit `Res` sum: `.thrown` is an exception
propagating to the caller, `.ret` a normal return.
-/

namespace Persona

/-- The unlock channel enumeration of `unlockUser` (actions.ts line 369):
the literal union type `email | stripe | free`. -/
inductive UnlockType where
  | email
  | stripe
  | free
  deriving DecidableEq

/-- A captured post.  The tweet scraper projects each post to a fixed field
set (actions.ts lines 199-218); no specified operation inspects the fields,
so a post is kept as an opaque payload. -/
structure Tweet where
  payload : String
  deriving DecidableEq

/-- A raw profile item of the profile-scraper dataset, with the fields that
`scrapeProfile` reads (actions.ts lines 161-177). -/
structure Profile where
  userName : String
  url : String
  name : String
  profilePicture : String
  description : String
  location : String
  followers : Int
  deriving DecidableEq

/-- The draft record built by `scrapeProfile` on success
(actions.ts lines 168-177). -/
structure ProfileDraft where
  username : String
  url : String
  name : String
  profilePicture : String
  description : String
  location : String
  fullProfile : Profile
  followers : Int
  deriving DecidableEq

/-- A row of the `users` table.  Modelled from the spec: the drizzle schema
file is not under src/; the field list follows §3 of the specification and
the fields actions.ts reads and writes, with the flags defaulting to false
and the nullable columns to none for a freshly inserted row. -/
structure UserRecord where
  username : String
  url : String := ""
  name : String := ""
  profilePicture : String := ""
  description : String := ""
  location : String := ""
  followers : Int := 0
  fullProfile : Option Profile := none
  tweets : Option (List Tweet) := none
  profileScraped : Bool := false
  tweetScrapeStarted : Bool := false
  tweetScrapeCompleted : Bool := false
  unlocked : Bool := false
  unlockType : Option UnlockType := none
  error : Option String := none
  deriving DecidableEq

/-- The user store: the rows of the `users` table, in insertion order. -/
abbrev Store := List UserRecord

/-- Outcome of a JavaScript async function call: a normal return or a
propagated exception (carrying the error message). -/
inductive Res (α : Type) where
  | ret (val : α)
  | thrown (msg : String)
  deriving DecidableEq

/-- True when the call returned normally rather than throwing. -/
def Res.isRet : Res α → Bool
  | .ret _ => true
  | .thrown _ => false

/-- Replace the first occurrence of `pat` in a character list, as
JavaScript `String.prototype.replace` does with a string pattern. -/
def replaceFirstAux (pat repl : List Char) : List Char → List Char
  | [] => if pat = [] then repl else []
  | c :: cs =>
    if pat.isPrefixOf (c :: cs) then repl ++ (c :: cs).drop pat.length
    else c :: replaceFirstAux pat repl cs

/-- JavaScript `s.replace(pat, repl)` with a string pattern: only the FIRST
occurrence of `pat` is replaced (used at actions.ts lines 172 and 349). -/
def replaceFirst (s pat repl : String) : String :=
  String.mk (replaceFirstAux pat.data repl.data s.data)

/-- JavaScript `suf` is a suffix of `s`, as `String.prototype.endsWith`. -/
def strEndsWith (s suf : String) : Bool :=
  suf.data.isSuffixOf s.data

/-- JSON.stringify of a caught exception value.  Every value that reaches a
stringify site on a live path of `processScrapedUser` is an `Error` object
(the `new Error` thrown at actions.ts line 270); an `Error` has no
enumerable own properties, so JSON.stringify renders it as "\x7b\x7d". -/
def jsonStringifyCaught (_msg : String) : String := "\x7b\x7d"

/-- Lowercasing of a username, as SQL LOWER and JavaScript toLowerCase do;
defined over the character list so that it evaluates by kernel reduction. -/
def strToLower (s : String) : String :=
  String.mk (s.data.map Char.toLower)

/-- getUser (actions.ts lines 19-22): case-insensitive lookup of a row by
username (the SQL compares LOWER(username) with the lowercased input). -/
def getUser (s : Store) (username : String) : Option UserRecord :=
  s.find? (fun r => strToLower r.username == strToLower username)

/-- insertUser (actions.ts lines 85-87): appends a row to the table. -/
def insertUser (s : Store) (user : UserRecord) : Store :=
  s ++ [user]

/-- updateUser (actions.ts lines 95-101): throws when the username is
missing (the empty string is the falsy value of the model); otherwise
rewrites every row whose username equals (case-sensitively) the given
row's username.  The update silently no-ops when no row matches. -/
def updateUser (s : Store) (user : UserRecord) : Except String Store :=
  if user.username = "" then
    .error "Username is required for updating a user"
  else
    .ok (s.map fun r => if r.username = user.username then user else r)

/-- Outcome of the profile-scraper actor run made by `scrapeProfile`:
the run finished with a dataset of items, the run's terminal status was
FAILED, or the call itself threw. -/
inductive ProfileRun where
  | finished (items : List Profile)
  | failed (statusMessage : String)
  | threw (msg : String)
  deriving DecidableEq

/-- The ``{ data, error }`` pair returned by both scraper clients. -/
structure ScrapeResult (α : Type) where
  data : Option α
  error : Option String
  deriving DecidableEq

/-- scrapeProfile (actions.ts lines 146-185).  On a FAILED run status it
throws `Scraping Error: ...` into its own catch.  When the dataset is
empty, `profiles[0]` is undefined and the field access
`profile.profilePicture` at line 162 raises a TypeError, likewise caught
(the explicit zero-profile guard at line 164 sits after that access, and
its empty-object disjunct cannot fire on a present record with fixed
fields).  On success it returns the draft with the picture URL's first
`_normal.` rewritten to `_400x400.`. -/
def scrapeProfile (run : ProfileRun) (_username : String) : ScrapeResult ProfileDraft :=
  match run with
  | .threw m => { data := none, error := some m }
  | .failed m => { data := none, error := some ("Scraping Error: " ++ m) }
  | .finished items =>
    match items.head? with
    | none =>
      { data := none
        error := some "Cannot read properties of undefined (reading 'profilePicture')" }
    | some p =>
      { error := none
        data := some
          { username := p.userName
            url := p.url
            name := p.name
            profilePicture := replaceFirst p.profilePicture "_normal." "_400x400."
            description := p.description
            location := p.location
            fullProfile := p
            followers := p.followers } }

/-- Outcome of one tweet-scraper actor run: the call returned a list of
posts, or it threw (`scrapeTweets` never inspects the run status). -/
inductive TweetRun where
  | ok (tweets : List Tweet)
  | threw (msg : String)
  deriving DecidableEq

/-- scrapeTweets (actions.ts lines 193-233): returns the listed posts with
a null error, or catches the thrown exception and returns it with null
data. -/
def scrapeTweets (run : TweetRun) : ScrapeResult (List Tweet) :=
  match run with
  | .ok tweets => { data := some tweets, error := none }
  | .threw m => { data := none, error := some m }

/-- Value returned by `handleNewUsername`: a redirect (Next.js redirect
throws a control-flow signal that navigates the caller), the
``{ data: null, error }`` pair, or the implicit undefined. -/
inductive HNUVal where
  | redirected (path : String)
  | errorPair (error : Option String)
  | undef
  deriving DecidableEq

/-- The row inserted by `handleNewUsername` (actions.ts lines 119-124): the
scraped draft spread into a row with profileScraped set and error null.
Modelled from the spec for the columns the insert does not mention: the
drizzle schema is not under src/, and §3 lists the remaining flags as
booleans (false until set) and posts as nullable. -/
def insertedRecord (d : ProfileDraft) : UserRecord :=
  { username := d.username
    url := d.url
    name := d.name
    profilePicture := d.profilePicture
    description := d.description
    location := d.location
    followers := d.followers
    fullProfile := some d.fullProfile
    profileScraped := true
    error := none }

/-- handleNewUsername (actions.ts lines 109-133), parametrised by the
outcome of the profile-scraper run it makes when the username is new. -/
def handleNewUsername (run : ProfileRun) (username : String) (s : Store) :
    Res HNUVal × Store :=
  match getUser s username with
  | some _ => (.ret (.redirected ("/" ++ username)), s)
  | none =>
    let res := scrapeProfile run username
    match res.data, res.error with
    | some d, none =>
      let s2 := insertUser s (insertedRecord d)
      (.ret (.redirected ("/" ++ d.username)), s2)
    | none, some e => (.ret (.errorPair (some e)), s)
    | _, _ => (.ret .undef, s)

/-- Value returned by `processScrapedUser`: the scraped posts, the
user-record-shaped failure value of the double-failure path, or the
implicit undefined. -/
inductive PSUVal where
  | tweetsList (ts : List Tweet)
  | failRecord (rec : UserRecord)
  | undef
  deriving DecidableEq

/-- Outcome of the try/catch block at actions.ts lines 257-281: either the
inner catch returned early with the failure-shaped record, or control fell
through to line 282 with the final values of the `tweets` and `error`
variables. -/
inductive PSUTry where
  | earlyReturn (rec : UserRecord)
  | fellThrough (tweets : Option (List Tweet)) (err : Option String)
  deriving DecidableEq

/-- The try/catch block of `processScrapedUser` (actions.ts lines 257-281).
Attempt one sets `tweets`/`error` from `scrapeTweets`; a null `data` makes
line 261 throw into the catch, which retries once; a second null `data`
makes line 270 throw `new Error` into the inner catch, which returns
``{...user, error: JSON.stringify(e)}`` without any store write. -/
def psuAttempts (run1 run2 : TweetRun) (user : UserRecord) : PSUTry :=
  let res1 := scrapeTweets run1
  match res1.data with
  | some ts => .fellThrough (some ts) res1.error
  | none =>
    let res2 := scrapeTweets run2
    match res2.data with
    | some ts => .fellThrough (some ts) res2.error
    | none => .earlyReturn { user with error := some (jsonStringifyCaught "No tweets found") }

/-- processScrapedUser (actions.ts lines 241-301), parametrised by the
outcomes of the up-to-two tweet-scraper runs.  Throws when the username
has no row (line 245).  Otherwise, when the started flag is still false,
persists started=true, runs the attempts, and then: on a normal
fall-through with posts and no error persists them with completed=true and
returns them; an error at line 292 would be persisted onto the row (a
branch no fall-through can reach, kept from the source); otherwise returns
undefined. -/
def processScrapedUser (run1 run2 : TweetRun) (username : String) (s : Store) :
    Res PSUVal × Store :=
  match getUser s username with
  | none => (.thrown ("User not found: " ++ username), s)
  | some user0 =>
    if user0.tweetScrapeStarted then (.ret .undef, s)
    else
      let user1 := { user0 with tweetScrapeStarted := true }
      match updateUser s user1 with
      | .error m => (.thrown m, s)
      | .ok s1 =>
        match psuAttempts run1 run2 user1 with
        | .earlyReturn rec => (.ret (.failRecord rec), s1)
        | .fellThrough tweets err =>
          match tweets, err with
          | some ts, none =>
            let user2 := { user1 with tweets := some ts, tweetScrapeCompleted := true }
            match updateUser s1 user2 with
            | .error m => (.thrown m, s1)
            | .ok s2 => (.ret (.tweetsList ts), s2)
          | _, some e =>
            let user2 := { user1 with error := some (jsonStringifyCaught e) }
            match updateUser s1 user2 with
            | .error m => (.thrown m, s1)
            | .ok s2 => (.ret .undef, s2)
          | none, none => (.ret .undef, s1)

/-- The success/error pair returned by the email-vendor wrappers and by
`unlockUser`. -/
structure ActionResult where
  success : Bool
  error : Option String := none
  deriving DecidableEq

/-- Outcome of the email-vendor HTTP call: response with ok status,
response with a non-ok status (carrying the parsed body's message, when
present, and the statusText), or a thrown exception (network failure or
unparseable body). -/
inductive HttpResponse where
  | ok
  | notOk (message : Option String) (statusText : String)
  | threw (msg : String)
  deriving DecidableEq

/-- createLoopsContact (actions.ts lines 309-328): reports success unless
the fetch or the body parse throws; the HTTP status is never checked. -/
def createLoopsContact (resp : HttpResponse) (_email : String) : ActionResult :=
  match resp with
  | .threw m => { success := false, error := some m }
  | .ok => { success := true }
  | .notOk _ _ => { success := true }

/-- The body of `unlockUser` before its catch (actions.ts lines 371-384):
load the row (throw when absent), set unlocked and the unlock type, and
persist through `updateUser` (whose own throw would also land in the
catch). -/
def unlockUserBody (username : String) (unlockType : UnlockType) (s : Store) :
    Res ActionResult × Store :=
  match getUser s username with
  | none => (.thrown ("User not found: " ++ username), s)
  | some user =>
    let updatedUser := { user with unlocked := true, unlockType := some unlockType }
    match updateUser s updatedUser with
    | .error m => (.thrown m, s)
    | .ok s2 => (.ret { success := true }, s2)

/-- unlockUser (actions.ts lines 369-391): the body wrapped in the catch
that converts any thrown error into a ``{ success: false, error }`` pair. -/
def unlockUser (username : String) (unlockType : UnlockType) (s : Store) :
    ActionResult × Store :=
  match unlockUserBody username unlockType s with
  | (.ret r, s2) => (r, s2)
  | (.thrown m, s2) => ({ success := false, error := some m }, s2)

/-- unlockGeneration (actions.ts lines 330-360), parametrised by the
outcome of the email-vendor HTTP call.  On a non-ok status it throws
``data.message || response.statusText`` into its catch.  On an ok status
it fires `unlockUser` on the username with its first slash stripped —
without awaiting or inspecting the result — and reports success. -/
def unlockGeneration (resp : HttpResponse) (username : String) (_email : String)
    (s : Store) : ActionResult × Store :=
  match resp with
  | .threw m => ({ success := false, error := some m }, s)
  | .notOk message statusText =>
    let m := match message with
      | some msg => if msg = "" then statusText else msg
      | none => statusText
    ({ success := false, error := some m }, s)
  | .ok =>
    let stripped := replaceFirst username "/" ""
    let step := unlockUser stripped UnlockType.email s
    ({ success := true }, step.2)

/-- Sample rows and payloads used by the concrete witnesses below. -/
def sampleTweet : Tweet := { payload := "hello" }

def sampleAlice : UserRecord := { username := "alice" }

def sampleUnlocked : UserRecord :=
  { username := "carol", unlocked := true, unlockType := some UnlockType.free }

/-- A scraped profile whose picture URL ends in the small-thumbnail suffix
but also contains an earlier occurrence of it. -/
def trickyProfile : Profile :=
  { userName := "newperson"
    url := "https://twitter.com/newperson"
    name := "New Person"
    profilePicture := "https://pbs.twimg.com/media/a_normal.b_normal.jpg"
    description := ""
    location := ""
    followers := 42 }

/-- A scraped profile whose picture URL contains the small-thumbnail suffix
only at its end. -/
def plainProfile : Profile :=
  { userName := "newperson"
    url := "https://twitter.com/newperson"
    name := "New Person"
    profilePicture := "https://pbs.twimg.com/media/pic_normal.jpg"
    description := ""
    location := ""
    followers := 42 }

/-! Helper lemmas about the store operations. -/

/-- Rewriting every row that matches a found row's exact username preserves
the case-insensitive lookup, which now returns the replacement row. -/
theorem find?_map_update (l : List UserRecord) (key : String) (v w : UserRecord)
    (hv : l.find? (fun r => strToLower r.username == key) = some v)
    (hw : w.username = v.username) :
    (l.map fun r => if r.username = v.username then w else r).find?
      (fun r => strToLower r.username == key) = some w := by
  induction l with
  | nil => simp at hv
  | cons x xs ih =>
    by_cases hx : (strToLower x.username == key) = true
    · rw [@List.find?_cons_of_pos _ (fun r => strToLower r.username == key) x xs hx] at hv
      have hxv : x = v := by injection hv
      subst hxv
      simp only [List.map_cons, if_pos rfl]
      exact @List.find?_cons_of_pos _ (fun r => strToLower r.username == key) w _
        (by show (strToLower w.username == key) = true; rw [hw]; exact hx)
    · rw [@List.find?_cons_of_neg _ (fun r => strToLower r.username == key) x xs hx] at hv
      have hpv : (strToLower v.username == key) = true :=
        @List.find?_some _ (fun r => strToLower r.username == key) v xs hv
      have hxv : x.username ≠ v.username := fun h => hx (by rw [h]; exact hpv)
      simp only [List.map_cons, if_neg hxv]
      rw [@List.find?_cons_of_neg _ (fun r => strToLower r.username == key) x _ hx]
      exact ih hv

/-- `updateUser` succeeds on a row with a non-empty username, rewriting the
rows with that exact username. -/
theorem updateUser_ok (s : Store) (u : UserRecord) (h : u.username ≠ "") :
    updateUser s u = .ok (s.map fun r => if r.username = u.username then u else r) := by
  simp [updateUser, h]

/-- After a successful `updateUser` of a row found by `getUser`, the lookup
returns the updated row. -/
theorem getUser_after_update (s : Store) (username : String) (v w : UserRecord)
    (hv : getUser s username = some v) (hw : w.username = v.username) :
    getUser (s.map fun r => if r.username = w.username then w else r) username
      = some w := by
  unfold getUser at hv ⊢
  rw [hw]
  exact find?_map_update s (strToLower username) v w hv hw

/-! Theorems for the claims. -/

/-- C1: code-bug exhibit.  For a stored row with tweetScrapeStarted=false
and a null error field, when both tweet-scrape attempts of
`processScrapedUser` fail, the step RETURNS a record carrying a non-null
error, but the STORE after the step holds the row written by the
started=true update only: completed=false, started=true, no posts written,
and a STILL-NULL error field.  The double-failure path returns at
actions.ts line 276 before any error-persisting write, so the claim's
"the stored record has a non-null error field" fails on the code (the
error-persisting branch at lines 292-298 is unreachable). -/
theorem processScrapedUser_double_failure_error_not_persisted :
    processScrapedUser (.threw "e1") (.threw "e2") "alice" [sampleAlice]
      = (.ret (.failRecord
            { sampleAlice with tweetScrapeStarted := true, error := some "\x7b\x7d" }),
         [{ sampleAlice with tweetScrapeStarted := true }])
    ∧ sampleAlice.tweetScrapeStarted = false
    ∧ sampleAlice.error = none
    ∧ getUser [{ sampleAlice with tweetScrapeStarted := true }] "alice"
        = some { sampleAlice with tweetScrapeStarted := true }
    ∧ ({ sampleAlice with tweetScrapeStarted := true } : UserRecord).tweetScrapeCompleted
        = false
    ∧ ({ sampleAlice with tweetScrapeStarted := true } : UserRecord).error = none
    ∧ ({ sampleAlice with tweetScrapeStarted := true } : UserRecord).tweets = none := by
  decide

/-- C3: counterexample.  `processScrapedUser` — an outward-facing operation
other than `updateUser` — propagates an exception to its caller when the
username has no record (actions.ts line 245), so the claim that no
operation other than updateUser throws on any input is false. -/
theorem processScrapedUser_throws_to_caller :
    processScrapedUser (.ok []) (.ok []) "bob" ([] : Store)
      = (.thrown "User not found: bob", ([] : Store)) := by
  decide

/-- C2: for every username not present in the store, `handleNewUsername`
either inserts exactly one new record with profileScraped=true and
error=none and signals creation (the redirect to the new record), or
inserts no record and returns a non-null error message — never both
outcomes for the same invocation. -/
theorem handleNewUsername_new_username (run : ProfileRun) (username : String)
    (s : Store) (habs : getUser s username = none) :
    Xor'
      (∃ rec, handleNewUsername run username s
          = (.ret (.redirected ("/" ++ rec.username)), s ++ [rec])
        ∧ rec.profileScraped = true ∧ rec.error = none)
      (∃ e, handleNewUsername run username s = (.ret (.errorPair (some e)), s)) := by
  cases run with
  | threw m =>
    refine Or.inr ⟨⟨m, by simp [handleNewUsername, habs, scrapeProfile]⟩, ?_⟩
    rintro ⟨rec, heq, -, -⟩
    simp [handleNewUsername, habs, scrapeProfile] at heq
  | failed m =>
    refine Or.inr ⟨⟨"Scraping Error: " ++ m,
      by simp [handleNewUsername, habs, scrapeProfile]⟩, ?_⟩
    rintro ⟨rec, heq, -, -⟩
    simp [handleNewUsername, habs, scrapeProfile] at heq
  | finished items =>
    cases items with
    | nil =>
      refine Or.inr ⟨⟨"Cannot read properties of undefined (reading 'profilePicture')",
        by simp [handleNewUsername, habs, scrapeProfile]⟩, ?_⟩
      rintro ⟨rec, heq, -, -⟩
      simp [handleNewUsername, habs, scrapeProfile] at heq
    | cons p rest =>
      refine Or.inl ⟨⟨insertedRecord
        { username := p.userName
          url := p.url
          name := p.name
          profilePicture := replaceFirst p.profilePicture "_normal." "_400x400."
          description := p.description
          location := p.location
          fullProfile := p
          followers := p.followers },
        by simp [handleNewUsername, habs, scrapeProfile, insertUser, insertedRecord],
        rfl, rfl⟩, ?_⟩
      rintro ⟨e, heq⟩
      simp [handleNewUsername, habs, scrapeProfile] at heq

/-- C2 witness: the theorem applied to the username "newperson" on the
empty store with a profile-scraper run that throws. -/
theorem handleNewUsername_new_username_witness :
    getUser ([] : Store) "newperson" = none
    ∧ Xor'
        (∃ rec, handleNewUsername (.threw "boom") "newperson" ([] : Store)
            = (.ret (.redirected ("/" ++ rec.username)), ([] : Store) ++ [rec])
          ∧ rec.profileScraped = true ∧ rec.error = none)
        (∃ e, handleNewUsername (.threw "boom") "newperson" ([] : Store)
            = (.ret (.errorPair (some e)), ([] : Store))) :=
  ⟨rfl, handleNewUsername_new_username (.threw "boom") "newperson" [] rfl⟩

/-- C7: `scrapeProfile` returns a draft exactly when the error is null
(never both non-null), and returns the error outcome whenever the run's
terminal status is failure or the result dataset holds zero profiles. -/
theorem scrapeProfile_shape (run : ProfileRun) (username : String) :
    ((scrapeProfile run username).data.isSome
        = (scrapeProfile run username).error.isNone)
    ∧ (∀ m, (scrapeProfile (.failed m) username).data = none
        ∧ (scrapeProfile (.failed m) username).error.isSome = true)
    ∧ ((scrapeProfile (.finished []) username).data = none
        ∧ (scrapeProfile (.finished []) username).error.isSome = true) := by
  refine ⟨?_, fun m => ⟨rfl, rfl⟩, rfl, rfl⟩
  cases run with
  | threw m => rfl
  | failed m => rfl
  | finished items => cases items <;> rfl

/-- One unlock call on an existing row with a non-empty username succeeds
and leaves the looked-up row unlocked with the given channel. -/
theorem unlockUser_found (s : Store) (username : String) (r : UserRecord)
    (c : UnlockType) (hr : getUser s username = some r) (hname : r.username ≠ "") :
    ∃ s2, unlockUser username c s = ({ success := true, error := none }, s2)
      ∧ getUser s2 username = some { r with unlocked := true, unlockType := some c } := by
  have h1 := updateUser_ok s { r with unlocked := true, unlockType := some c } hname
  refine ⟨_, ?_, getUser_after_update s username r _ hr rfl⟩
  simp [unlockUser, unlockUserBody, hr, h1]

/-- When the started flag is still false and the stored username is
non-empty, a tweet post-processing run whose first attempt fails and whose
second attempt returns `ts` persists the posts with completed=true and
returns them. -/
theorem psu_retry_succeeds
    (s : Store) (username e1 : String) (ts : List Tweet) (r : UserRecord)
    (hr : getUser s username = some r) (hstart : r.tweetScrapeStarted = false)
    (hname : r.username ≠ "") :
    ∃ s2, processScrapedUser (.threw e1) (.ok ts) username s
        = (.ret (.tweetsList ts), s2)
      ∧ getUser s2 username
          = some { r with
                   tweetScrapeStarted := true, tweets := some ts,
                   tweetScrapeCompleted := true } := by
  have h1 := updateUser_ok s { r with tweetScrapeStarted := true } hname
  have g1 := getUser_after_update s username r { r with tweetScrapeStarted := true } hr rfl
  have h2 := updateUser_ok
    (s.map fun x => if x.username
        = ({ r with tweetScrapeStarted := true } : UserRecord).username
      then { r with tweetScrapeStarted := true } else x)
    { r with
      tweetScrapeStarted := true, tweets := some ts,
      tweetScrapeCompleted := true } hname
  refine ⟨_, ?_, getUser_after_update _ username { r with tweetScrapeStarted := true }
    _ g1 rfl⟩
  simp [processScrapedUser, hr, hstart, psuAttempts, scrapeTweets, h1, h2]

/-- When the started flag is still false and the stored username is
non-empty, a tweet post-processing run whose first attempt returns `ts`
persists the posts with completed=true and returns them, whatever the
(unused) second run would have done. -/
theorem psu_first_succeeds
    (run2 : TweetRun) (s : Store) (username : String) (ts : List Tweet)
    (r : UserRecord) (hr : getUser s username = some r)
    (hstart : r.tweetScrapeStarted = false) (hname : r.username ≠ "") :
    ∃ s2, processScrapedUser (.ok ts) run2 username s
        = (.ret (.tweetsList ts), s2)
      ∧ getUser s2 username
          = some { r with
                   tweetScrapeStarted := true, tweets := some ts,
                   tweetScrapeCompleted := true } := by
  have h1 := updateUser_ok s { r with tweetScrapeStarted := true } hname
  have g1 := getUser_after_update s username r { r with tweetScrapeStarted := true } hr rfl
  have h2 := updateUser_ok
    (s.map fun x => if x.username
        = ({ r with tweetScrapeStarted := true } : UserRecord).username
      then { r with tweetScrapeStarted := true } else x)
    { r with
      tweetScrapeStarted := true, tweets := some ts,
      tweetScrapeCompleted := true } hname
  refine ⟨_, ?_, getUser_after_update _ username { r with tweetScrapeStarted := true }
    _ g1 rfl⟩
  simp [processScrapedUser, hr, hstart, psuAttempts, scrapeTweets, h1, h2]

/-- When the started flag is still false and the stored username is
non-empty, a tweet post-processing run whose two attempts both fail
returns the failure-shaped record without persisting it: the store ends at
the row written by the started=true update. -/
theorem psu_both_fail
    (s : Store) (username e1 e2 : String) (r : UserRecord)
    (hr : getUser s username = some r) (hstart : r.tweetScrapeStarted = false)
    (hname : r.username ≠ "") :
    ∃ s1, processScrapedUser (.threw e1) (.threw e2) username s
        = (.ret (.failRecord
            { r with tweetScrapeStarted := true, error := some "\x7b\x7d" }), s1)
      ∧ getUser s1 username = some { r with tweetScrapeStarted := true } := by
  have h1 := updateUser_ok s { r with tweetScrapeStarted := true } hname
  refine ⟨_, ?_,
    getUser_after_update s username r { r with tweetScrapeStarted := true } hr rfl⟩
  simp [processScrapedUser, hr, hstart, psuAttempts, scrapeTweets, h1,
    jsonStringifyCaught]

/-- `handleNewUsername` never propagates an exception: every path returns a
value (the redirect signal, the error pair, or undefined). -/
theorem handleNewUsername_isRet (run : ProfileRun) (username : String) (s : Store) :
    (handleNewUsername run username s).1.isRet = true := by
  unfold handleNewUsername
  cases hg : getUser s username with
  | some u => rfl
  | none =>
    cases run with
    | threw m => rfl
    | failed m => rfl
    | finished items => cases items <;> rfl

/-- C4: for a record that exists with tweetScrapeStarted=false, when the
first tweet-scrape attempt fails and the second succeeds with posts `ts`,
`processScrapedUser` persists a record with tweetScrapeCompleted=true whose
stored posts are exactly `ts` — the posts of the second attempt — and
returns `ts`. -/
theorem processScrapedUser_first_fails_second_succeeds
    (s : Store) (username e1 : String) (ts : List Tweet) (r : UserRecord)
    (hr : getUser s username = some r) (hstart : r.tweetScrapeStarted = false)
    (hname : r.username ≠ "") :
    ∃ s2, processScrapedUser (.threw e1) (.ok ts) username s
        = (.ret (.tweetsList ts), s2)
      ∧ getUser s2 username
          = some { r with
                   tweetScrapeStarted := true, tweets := some ts,
                   tweetScrapeCompleted := true } :=
  psu_retry_succeeds s username e1 ts r hr hstart hname

/-- C4 witness: the theorem applied to a one-row store whose row has
started=false, with a throwing first run and a succeeding second run. -/
theorem processScrapedUser_first_fails_second_succeeds_witness :
    getUser [sampleAlice] "alice" = some sampleAlice
    ∧ sampleAlice.tweetScrapeStarted = false
    ∧ sampleAlice.username ≠ ""
    ∧ ∃ s2, processScrapedUser (.threw "net down") (.ok [sampleTweet]) "alice"
          [sampleAlice]
        = (.ret (.tweetsList [sampleTweet]), s2)
      ∧ getUser s2 "alice"
          = some { sampleAlice with
                   tweetScrapeStarted := true,
                   tweets := some [sampleTweet], tweetScrapeCompleted := true } :=
  ⟨by decide, rfl, by decide,
    processScrapedUser_first_fails_second_succeeds [sampleAlice] "alice" "net down"
      [sampleTweet] sampleAlice (by decide) rfl (by decide)⟩

/-- C5: for an existing record, one `unlockUser` call with channel `c`
reports success and leaves the stored record with unlocked=true and
unlockType=c; a subsequent call with channel `d` leaves unlocked=true and
unlockType=d — last write wins, no conflict detection. -/
theorem unlockUser_last_write_wins (s : Store) (username : String) (r : UserRecord)
    (c d : UnlockType) (hr : getUser s username = some r) (hname : r.username ≠ "") :
    ∃ s1 s2,
      unlockUser username c s = ({ success := true, error := none }, s1)
      ∧ getUser s1 username = some { r with unlocked := true, unlockType := some c }
      ∧ unlockUser username d s1 = ({ success := true, error := none }, s2)
      ∧ getUser s2 username = some { r with unlocked := true, unlockType := some d } := by
  obtain ⟨s1, e1, g1⟩ := unlockUser_found s username r c hr hname
  obtain ⟨s2, e2, g2⟩ := unlockUser_found s1 username _ d g1 hname
  exact ⟨s1, s2, e1, g1, e2, g2⟩

/-- C5 witness: the theorem applied to a one-row store, unlocking first by
email and then by stripe. -/
theorem unlockUser_last_write_wins_witness :
    getUser [sampleAlice] "alice" = some sampleAlice
    ∧ sampleAlice.username ≠ ""
    ∧ ∃ s1 s2,
        unlockUser "alice" UnlockType.email [sampleAlice]
          = ({ success := true, error := none }, s1)
        ∧ getUser s1 "alice"
            = some { sampleAlice with
                     unlocked := true, unlockType := some UnlockType.email }
        ∧ unlockUser "alice" UnlockType.stripe s1
            = ({ success := true, error := none }, s2)
        ∧ getUser s2 "alice"
            = some { sampleAlice with
                     unlocked := true, unlockType := some UnlockType.stripe } :=
  ⟨by decide, by decide,
    unlockUser_last_write_wins [sampleAlice] "alice" sampleAlice .email .stripe
      (by decide) (by decide)⟩

/-- C6: for a username with no record in the store, `unlockUser` fails with
the not-found error result and performs no write — the store is returned
unchanged. -/
theorem unlockUser_missing_no_write (username : String) (ut : UnlockType) (s : Store)
    (h : getUser s username = none) :
    unlockUser username ut s
      = ({ success := false, error := some ("User not found: " ++ username) }, s) := by
  simp [unlockUser, unlockUserBody, h]

/-- C6 witness: the theorem applied to a username absent from a one-row
store. -/
theorem unlockUser_missing_no_write_witness :
    getUser [sampleAlice] "bob" = none
    ∧ unlockUser "bob" UnlockType.free [sampleAlice]
        = ({ success := false, error := some "User not found: bob" }, [sampleAlice]) :=
  ⟨by decide, unlockUser_missing_no_write "bob" .free [sampleAlice] (by decide)⟩

/-- C3 (amended): every modelled outward-facing operation catches its own
failures and returns a result/error pair, except the record-update's
missing-username check, which throws, AND `processScrapedUser`, which also
throws to its caller — when the username has no record (and it would pass
updateUser's throw through on a stored empty username).  In particular:
`handleNewUsername` never throws; `processScrapedUser` does not throw when
the record exists with a non-empty stored username; `unlockUser` catches
its own not-found failure and returns an error pair; `updateUser` throws
exactly its missing-username error; the email-vendor wrappers always
return a success flag or an error message. -/
theorem operations_catch_failures
    (run : ProfileRun) (run1 run2 : TweetRun) (uname uname2 : String)
    (ut : UnlockType) (resp : HttpResponse) (email : String)
    (s : Store) (u rec : UserRecord) :
    ((handleNewUsername run uname s).1.isRet = true)
    ∧ (getUser s uname = some rec → rec.username ≠ "" →
        (processScrapedUser run1 run2 uname s).1.isRet = true)
    ∧ (getUser s uname2 = none →
        unlockUser uname2 ut s
          = ({ success := false, error := some ("User not found: " ++ uname2) }, s))
    ∧ (u.username = "" →
        updateUser s u = .error "Username is required for updating a user")
    ∧ ((createLoopsContact resp email).success = true
        ∨ (createLoopsContact resp email).error.isSome = true)
    ∧ ((unlockGeneration resp uname email s).1.success = true
        ∨ (unlockGeneration resp uname email s).1.error.isSome = true) := by
  refine ⟨handleNewUsername_isRet run uname s, ?_, ?_, ?_, ?_, ?_⟩
  · intro h hnm
    by_cases hst : rec.tweetScrapeStarted
    · simp [processScrapedUser, h, hst, Res.isRet]
    · have hst' : rec.tweetScrapeStarted = false := by simpa using hst
      cases run1 with
      | ok ts =>
        obtain ⟨s2, e, -⟩ := psu_first_succeeds run2 s uname ts rec h hst' hnm
        simp [e, Res.isRet]
      | threw m1 =>
        cases run2 with
        | ok ts =>
          obtain ⟨s2, e, -⟩ := psu_retry_succeeds s uname m1 ts rec h hst' hnm
          simp [e, Res.isRet]
        | threw m2 =>
          obtain ⟨s1, e, -⟩ := psu_both_fail s uname m1 m2 rec h hst' hnm
          simp [e, Res.isRet]
  · intro h
    simp [unlockUser, unlockUserBody, h]
  · intro h
    simp [updateUser, h]
  · cases resp <;> simp [createLoopsContact]
  · cases resp <;> simp [unlockGeneration]

/-- C3 (amended) witness: the amended theorem applied at concrete inputs —
an existing row for the no-throw parts, a missing username for the caught
unlock failure, an empty username for the update throw, and a throwing
vendor call for the email wrappers. -/
theorem operations_catch_failures_witness :
    ((handleNewUsername (.threw "x") "alice" [sampleAlice]).1.isRet = true)
    ∧ ((processScrapedUser (.threw "a") (.threw "b") "alice" [sampleAlice]).1.isRet
        = true)
    ∧ (unlockUser "bob" UnlockType.email [sampleAlice]
        = ({ success := false, error := some "User not found: bob" }, [sampleAlice]))
    ∧ (updateUser [sampleAlice] { username := "" }
        = .error "Username is required for updating a user")
    ∧ ((createLoopsContact (.threw "y") "e@x").success = true
        ∨ (createLoopsContact (.threw "y") "e@x").error.isSome = true)
    ∧ ((unlockGeneration (.threw "y") "alice" "e@x" [sampleAlice]).1.success = true
        ∨ (unlockGeneration (.threw "y") "alice" "e@x" [sampleAlice]).1.error.isSome
            = true) := by
  have h := operations_catch_failures (.threw "x") (.threw "a") (.threw "b")
    "alice" "bob" UnlockType.email (.threw "y") "e@x" [sampleAlice]
    { username := "" } sampleAlice
  exact ⟨h.1, h.2.1 (by decide) (by decide), h.2.2.1 (by decide),
    h.2.2.2.1 rfl, h.2.2.2.2.1, h.2.2.2.2.2⟩

/-- C9: the unlocked flag is monotonic: for a stored record with
unlocked=true, each specified operation applied to that record's username
(acquisition, tweet post-processing with any attempt outcomes, unlock with
any channel) leaves the looked-up record's unlocked field true. -/
theorem unlocked_monotonic (run : ProfileRun) (run1 run2 : TweetRun)
    (username : String) (ut : UnlockType) (s : Store) (r : UserRecord)
    (hr : getUser s username = some r) (hu : r.unlocked = true) :
    (∀ u, getUser (handleNewUsername run username s).2 username = some u →
        u.unlocked = true)
    ∧ (∀ u, getUser (processScrapedUser run1 run2 username s).2 username = some u →
        u.unlocked = true)
    ∧ (∀ u, getUser (unlockUser username ut s).2 username = some u →
        u.unlocked = true) := by
  refine ⟨?_, ?_, ?_⟩
  · intro u h
    have e : (handleNewUsername run username s).2 = s := by
      simp [handleNewUsername, hr]
    rw [e, hr] at h
    have : r = u := by injection h
    subst this
    exact hu
  · intro u h
    by_cases hst : r.tweetScrapeStarted
    · have e : (processScrapedUser run1 run2 username s).2 = s := by
        simp [processScrapedUser, hr, hst]
      rw [e, hr] at h
      have : r = u := by injection h
      subst this
      exact hu
    · have hst' : r.tweetScrapeStarted = false := by simpa using hst
      by_cases hname : r.username = ""
      · have e : (processScrapedUser run1 run2 username s).2 = s := by
          simp [processScrapedUser, updateUser, hr, hst', hname]
        rw [e, hr] at h
        have : r = u := by injection h
        subst this
        exact hu
      · cases run1 with
        | ok ts =>
          obtain ⟨s2, e, g⟩ := psu_first_succeeds run2 s username ts r hr hst' hname
          rw [e] at h
          simp only at h
          rw [g] at h
          injection h with h2
          subst h2
          exact hu
        | threw m1 =>
          cases run2 with
          | ok ts =>
            obtain ⟨s2, e, g⟩ := psu_retry_succeeds s username m1 ts r hr hst' hname
            rw [e] at h
            simp only at h
            rw [g] at h
            injection h with h2
            subst h2
            exact hu
          | threw m2 =>
            obtain ⟨s1, e, g⟩ := psu_both_fail s username m1 m2 r hr hst' hname
            rw [e] at h
            simp only at h
            rw [g] at h
            injection h with h2
            subst h2
            exact hu
  · intro u h
    by_cases hname : r.username = ""
    · have e : (unlockUser username ut s).2 = s := by
        simp [unlockUser, unlockUserBody, updateUser, hr, hname]
      rw [e, hr] at h
      have : r = u := by injection h
      subst this
      exact hu
    · obtain ⟨s2, e, g⟩ := unlockUser_found s username r ut hr hname
      rw [e] at h
      simp only at h
      rw [g] at h
      injection h with h2
      subst h2
      rfl

/-- C9 witness: the theorem applied to a one-row store whose row is
unlocked, with concrete run outcomes and the stripe channel: the record
looked up after the unlock call is still unlocked. -/
theorem unlocked_monotonic_witness :
    getUser [sampleUnlocked] "carol" = some sampleUnlocked
    ∧ sampleUnlocked.unlocked = true
    ∧ ({ sampleUnlocked with
         unlocked := true, unlockType := some UnlockType.stripe } : UserRecord).unlocked
        = true := by
  refine ⟨by decide, rfl, ?_⟩
  exact (unlocked_monotonic (.threw "x") (.threw "a") (.ok [sampleTweet]) "carol"
    UnlockType.stripe [sampleUnlocked] sampleUnlocked (by decide) rfl).2.2 _ (by decide)

/-- C10: `unlockGeneration`'s reported outcome is independent of the unlock
write: on an OK email-vendor response it returns success=true even though
the inner, un-awaited and un-inspected `unlockUser` call fails because the
username (after stripping a leading slash) matches no record — and the
store is left unchanged. -/
theorem unlockGeneration_ignores_unlock_result (username email : String) (s : Store)
    (h : getUser s (replaceFirst username "/" "") = none) :
    unlockGeneration .ok username email s = ({ success := true, error := none }, s)
    ∧ (unlockUser (replaceFirst username "/" "") UnlockType.email s).1
        = { success := false,
            error := some ("User not found: " ++ replaceFirst username "/" "") } := by
  constructor
  · simp [unlockGeneration, unlockUser, unlockUserBody, h]
  · simp [unlockUser, unlockUserBody, h]

/-- C10 witness: the theorem applied to the username "/dave" on a one-row
store holding only "alice". -/
theorem unlockGeneration_ignores_unlock_result_witness :
    getUser [sampleAlice] (replaceFirst "/dave" "/" "") = none
    ∧ unlockGeneration .ok "/dave" "d@x" [sampleAlice]
        = ({ success := true, error := none }, [sampleAlice])
    ∧ (unlockUser (replaceFirst "/dave" "/" "") UnlockType.email [sampleAlice]).1
        = { success := false,
            error := some ("User not found: " ++ replaceFirst "/dave" "/" "") } := by
  have h := unlockGeneration_ignores_unlock_result "/dave" "d@x" [sampleAlice]
    (by decide)
  exact ⟨by decide, h.1, h.2⟩

/-- C8: counterexample.  JavaScript replace rewrites only the FIRST
occurrence of `_normal.`: for a username absent from the store and a
scraper response with followers=42 whose picture URL ends in
`_normal.jpg` but contains an earlier `_normal.`, the stored record's
picture URL does NOT end in `_400x400.jpg` (it still ends in
`_normal.jpg`), so the claim as universally stated is false. -/
theorem handleNewUsername_suffix_counterexample :
    strEndsWith trickyProfile.profilePicture "_normal.jpg" = true
    ∧ trickyProfile.followers = 42
    ∧ getUser ([] : Store) "newperson" = none
    ∧ (getUser (handleNewUsername (.finished [trickyProfile]) "newperson"
          ([] : Store)).2 "newperson").map UserRecord.profilePicture
        = some "https://pbs.twimg.com/media/a_400x400.b_normal.jpg"
    ∧ (getUser (handleNewUsername (.finished [trickyProfile]) "newperson"
          ([] : Store)).2 "newperson").map UserRecord.followers = some 42
    ∧ strEndsWith "https://pbs.twimg.com/media/a_400x400.b_normal.jpg" "_400x400.jpg"
        = false
    ∧ strEndsWith "https://pbs.twimg.com/media/a_400x400.b_normal.jpg" "_normal.jpg"
        = true := by
  decide

/-- C8 (amended): for a username absent from the store and a scraper run
whose first profile has followers=42, acquisition stores exactly one new
record with followers=42 whose picture URL is the scraped URL with its
FIRST occurrence of `_normal.` replaced by `_400x400.` — so a URL whose
only occurrence of `_normal.` is its trailing `_normal.jpg` ends up ending
in `_400x400.jpg`. -/
theorem handleNewUsername_rewrites_thumbnail (s : Store) (username : String)
    (p : Profile) (rest : List Profile) (habs : getUser s username = none)
    (hf : p.followers = 42) :
    ∃ rec, (handleNewUsername (.finished (p :: rest)) username s).2 = s ++ [rec]
      ∧ rec.followers = 42
      ∧ rec.profilePicture = replaceFirst p.profilePicture "_normal." "_400x400." := by
  refine ⟨insertedRecord
    { username := p.userName
      url := p.url
      name := p.name
      profilePicture := replaceFirst p.profilePicture "_normal." "_400x400."
      description := p.description
      location := p.location
      fullProfile := p
      followers := p.followers }, ?_, hf, rfl⟩
  simp [handleNewUsername, habs, scrapeProfile, insertUser]

/-- C8 (amended) witness: the amended theorem applied to the empty store
and a profile whose picture URL is `.../pic_normal.jpg`. -/
theorem handleNewUsername_rewrites_thumbnail_witness :
    getUser ([] : Store) "newperson" = none
    ∧ plainProfile.followers = 42
    ∧ ∃ rec, (handleNewUsername (.finished [plainProfile]) "newperson"
          ([] : Store)).2 = ([] : Store) ++ [rec]
      ∧ rec.followers = 42
      ∧ rec.profilePicture
          = replaceFirst plainProfile.profilePicture "_normal." "_400x400." :=
  ⟨rfl, rfl,
    handleNewUsername_rewrites_thumbnail [] "newperson" plainProfile [] rfl rfl⟩

end Persona
